import Mathlib

/-!
Shallow embedding of MacAddressEmulationDxe, a UEFI DXE driver that emulates
a platform-defined MAC address on one discovered Ethernet interface.

The embedding follows the C source function by function:
  - SnpSupportsMacEmuCheck: the eligibility predicate over a candidate SNP
    handle, its protocol instance, and the assignment context.
  - FindMatchingSnp: the scan over the handle registry returning the first
    candidate accepted by the match function.
  - SetSnpMacViaContext: the assigner, including the TPL (task priority
    level) manipulation sequence around the StationAddress device write,
    recorded here as an explicit operation trace.
  - SimpleNetworkProtocolNotify: the event callback composing scan + assign.
  - MacAddressEmulationEntry: the driver entry point.

External collaborators (platform library, boot services, the SNP device
itself) are parameters: the platform per-device check is a function
`EFI_HANDLE → Bool`, registry enumeration is an `Except` value, the
StationAddress outcome is an environment-chosen status, with its success
semantics taken from the UEFI contract of the external SNP implementation.
Machine memory operations on EFI_MAC_ADDRESS buffers (CompareMem / CopyMem
over a byte count) are modelled on byte functions `Nat → Nat`.
-/

namespace MacEmu

/-- EFI status codes reached by the examined driver paths. -/
inductive EfiStatus where
  | success
  | unsupported
  | outOfResources
  | notFound
  | invalidParameter
  | notStarted
  | deviceError
  | aborted
  deriving DecidableEq

/-- EFI_ERROR predicate: every status code other than success is an error. -/
def EfiStatus.isError : EfiStatus → Bool
  | .success => false
  | _ => true

/-- EFI_SIMPLE_NETWORK state value for a stopped interface. -/
def EfiSimpleNetworkStopped : Nat := 0

/-- EFI_SIMPLE_NETWORK state value for a started but uninitialized interface. -/
def EfiSimpleNetworkStarted : Nat := 1

/-- EFI_SIMPLE_NETWORK state value for a fully initialized interface. -/
def EfiSimpleNetworkInitialized : Nat := 2

/-- NetLib interface type code for Ethernet. -/
def NET_IFTYPE_ETHERNET : Nat := 1

/-- Length in bytes of an Ethernet MAC address. -/
def NET_ETHER_ADDR_LEN : Nat := 6

/-- Size in bytes of the full EFI_MAC_ADDRESS buffer. -/
def SIZEOF_EFI_MAC_ADDRESS : Nat := 32

/-- TPL value TPL_APPLICATION. -/
def TPL_APPLICATION : Nat := 4

/-- TPL value TPL_CALLBACK. -/
def TPL_CALLBACK : Nat := 8

/-- TPL value TPL_NOTIFY. -/
def TPL_NOTIFY : Nat := 16

/-- TPL value TPL_HIGH_LEVEL, the highest available task priority level. -/
def TPL_HIGH_LEVEL : Nat := 31

/-- A MAC address buffer: the byte stored at each offset. -/
abbrev MacBytes := Nat → Nat

/-- CompareMem over the first `len` bytes, phrased as the boolean equality
test the C code writes as `CompareMem (a, b, len) == 0`. -/
def compareMemEq (a b : MacBytes) (len : Nat) : Bool :=
  (List.range len).all fun i => a i == b i

/-- CopyMem of the first `len` bytes of `src` over `dst`. -/
def copyMem (dst src : MacBytes) (len : Nat) : MacBytes :=
  fun i => if i < len then src i else dst i

/-- An all-zero buffer, as produced by AllocateZeroPool. -/
def zeroBytes : MacBytes := fun _ => 0

/-- Handles are opaque non-null tokens; a nullable handle is an Option. -/
abbrev EFI_HANDLE := Nat

/-- The read-only mode block of an SNP instance, restricted to the fields the
driver reads: State, IfType, MacAddressChangeable, CurrentAddress and
PermanentAddress. -/
structure EFI_SIMPLE_NETWORK_MODE where
  State : Nat
  IfType : Nat
  MacAddressChangeable : Bool
  CurrentAddress : MacBytes
  PermanentAddress : MacBytes

/-- An SNP protocol instance as the driver sees it. -/
structure EFI_SIMPLE_NETWORK_PROTOCOL where
  Mode : EFI_SIMPLE_NETWORK_MODE

/-- The notify context allocated by the driver entry point. -/
structure MAC_EMULATION_SNP_NOTIFY_CONTEXT where
  Assigned : Bool
  EmulationAddress : MacBytes
  PermanentAddress : MacBytes

/-- SnpSupportsMacEmuCheck from MacAddressEmulationDxe.c. The platform
per-device policy PlatformMacEmulationSnpCheck is the parameter `plat`.
The C body initializes IsMatch from the null checks and then runs the
guarded updates `if (IsMatch && failing-condition) IsMatch = FALSE` in
source order; the final guarded update replaces IsMatch by the permanent
address comparison when the context is already assigned. -/
def SnpSupportsMacEmuCheck (plat : EFI_HANDLE → Bool)
    (SnpHandle : Option EFI_HANDLE)
    (Snp : Option EFI_SIMPLE_NETWORK_PROTOCOL)
    (Context : Option MAC_EMULATION_SNP_NOTIFY_CONTEXT) : Bool :=
  match SnpHandle, Snp, Context with
  | some hdl, some snp, some ctx =>
    let m1 := true
    let m2 := m1 && (snp.Mode.State == EfiSimpleNetworkInitialized)
    let m3 := m2 && (snp.Mode.IfType == NET_IFTYPE_ETHERNET)
    let m4 := m3 && snp.Mode.MacAddressChangeable
    let m5 := m4 && plat hdl
    if m5 && ctx.Assigned then
      compareMemEq snp.Mode.PermanentAddress ctx.PermanentAddress NET_ETHER_ADDR_LEN
    else
      m5
  | _, _, _ => false

/-- Evaluation record for one SnpSupportsMacEmuCheck call: the boolean
result, whether the platform per-device check was actually invoked, and
whether the permanent-address CompareMem was actually executed. -/
structure EligTrace where
  result : Bool
  oracleConsulted : Bool
  permCompared : Bool

/-- Instrumented reading of SnpSupportsMacEmuCheck. In the C body the
platform check appears as the right operand of a short-circuit `IsMatch &&
PlatformMacEmulationSnpCheck (SnpHandle)`, so it executes exactly when
IsMatch still holds after the state, interface type and programmability
checks; the CompareMem of step 6 executes exactly when IsMatch holds after
the platform check and the context is already assigned. -/
def SnpSupportsMacEmuCheckTrace (plat : EFI_HANDLE → Bool)
    (SnpHandle : Option EFI_HANDLE)
    (Snp : Option EFI_SIMPLE_NETWORK_PROTOCOL)
    (Context : Option MAC_EMULATION_SNP_NOTIFY_CONTEXT) : EligTrace :=
  match SnpHandle, Snp, Context with
  | some hdl, some snp, some ctx =>
    let m2 := snp.Mode.State == EfiSimpleNetworkInitialized
    let m3 := m2 && (snp.Mode.IfType == NET_IFTYPE_ETHERNET)
    let m4 := m3 && snp.Mode.MacAddressChangeable
    let m5 := m4 && plat hdl
    let pc := m5 && ctx.Assigned
    { result :=
        if pc then
          compareMemEq snp.Mode.PermanentAddress ctx.PermanentAddress NET_ETHER_ADDR_LEN
        else m5,
      oracleConsulted := m4,
      permCompared := pc }
  | _, _, _ => { result := false, oracleConsulted := false, permCompared := false }

/-- Type of the match callback passed to FindMatchingSnp. -/
abbrev SNP_MATCH_FUNCTION :=
  Option EFI_HANDLE → Option EFI_SIMPLE_NETWORK_PROTOCOL →
  Option MAC_EMULATION_SNP_NOTIFY_CONTEXT → Bool

/-- The handle loop body of FindMatchingSnp: for each handle, HandleProtocol
is queried; the match function runs only when that query succeeds, and the
loop breaks at the first accepted instance, otherwise SnpInstance is reset
to null and the scan continues. -/
def snpSearchLoop (MatchFunction : SNP_MATCH_FUNCTION)
    (HandleProtocol : EFI_HANDLE → Option EFI_SIMPLE_NETWORK_PROTOCOL)
    (MatchFunctionContext : Option MAC_EMULATION_SNP_NOTIFY_CONTEXT) :
    List EFI_HANDLE → Option EFI_SIMPLE_NETWORK_PROTOCOL
  | [] => none
  | hdl :: rest =>
    match HandleProtocol hdl with
    | some snpInstance =>
      if MatchFunction (some hdl) (some snpInstance) MatchFunctionContext then
        some snpInstance
      else
        snpSearchLoop MatchFunction HandleProtocol MatchFunctionContext rest
    | none => snpSearchLoop MatchFunction HandleProtocol MatchFunctionContext rest

/-- FindMatchingSnp from MacAddressEmulationDxe.c. LocateHandleBuffer is the
enumeration outcome supplied by boot services: an error status (including
EFI_NOT_FOUND for an empty registry) or the list of SNP handles. A null
match function yields EFI_INVALID_PARAMETER internally; every error path
skips the loop and returns null. -/
def FindMatchingSnp (LocateHandleBuffer : Except EfiStatus (List EFI_HANDLE))
    (HandleProtocol : EFI_HANDLE → Option EFI_SIMPLE_NETWORK_PROTOCOL)
    (MatchFunction : Option SNP_MATCH_FUNCTION)
    (MatchFunctionContext : Option MAC_EMULATION_SNP_NOTIFY_CONTEXT) :
    Option EFI_SIMPLE_NETWORK_PROTOCOL :=
  match MatchFunction with
  | none => none
  | some matchFn =>
    match LocateHandleBuffer with
    | Except.error _ => none
    | Except.ok handles => snpSearchLoop matchFn HandleProtocol MatchFunctionContext handles

/-- One TPL-affecting step of SetSnpMacViaContext, in execution order:
RaiseTPL to a level, RestoreTPL to a level, the StationAddress device
write, or RestoreTPL to the level saved by the first RaiseTPL call. -/
inductive TplOp where
  | raiseTpl (t : Nat)
  | restoreTpl (t : Nat)
  | stationWrite
  | restoreOldTpl
  deriving DecidableEq

/-- Result of one assigner or notify run: the possibly updated SNP instance,
the possibly updated context, and the trace of TPL operations and device
write actually executed. -/
structure AssignResult where
  snp : Option EFI_SIMPLE_NETWORK_PROTOCOL
  context : Option MAC_EMULATION_SNP_NOTIFY_CONTEXT
  tplOps : List TplOp

/-- UEFI contract of the external StationAddress service with Reset = FALSE:
the environment chooses the outcome status; on a non-error outcome the
current station address of the interface becomes the new address passed in
(a CopyMem of the full EFI_MAC_ADDRESS), and on an error outcome the
interface is unchanged. The SNP implementation is an external collaborator,
not code of this driver. -/
def stationAddressCall (stationAddressStatus : EfiStatus)
    (snp : EFI_SIMPLE_NETWORK_PROTOCOL) (newAddr : MacBytes) :
    EfiStatus × EFI_SIMPLE_NETWORK_PROTOCOL :=
  if stationAddressStatus.isError then
    (stationAddressStatus, snp)
  else
    (stationAddressStatus,
     { snp with Mode := { snp.Mode with
         CurrentAddress := copyMem snp.Mode.CurrentAddress newAddr SIZEOF_EFI_MAC_ADDRESS } })

/-- SetSnpMacViaContext from MacAddressEmulationDxe.c. Status starts as
EFI_NOT_STARTED; only when both pointers are non-null does the body run:
RaiseTPL (TPL_HIGH_LEVEL), RestoreTPL (TPL_CALLBACK), the StationAddress
write of Context.EmulationAddress, RaiseTPL (TPL_HIGH_LEVEL), RestoreTPL
(OldTpl). On an error status the context is only logged against; otherwise
the permanent address of the SNP is copied into the context over
NET_ETHER_ADDR_LEN bytes and Assigned is set. -/
def SetSnpMacViaContext (stationAddressStatus : EfiStatus)
    (Snp : Option EFI_SIMPLE_NETWORK_PROTOCOL)
    (Context : Option MAC_EMULATION_SNP_NOTIFY_CONTEXT) : AssignResult :=
  match Snp, Context with
  | some snp, some ctx =>
    let call := stationAddressCall stationAddressStatus snp ctx.EmulationAddress
    let ops := [TplOp.raiseTpl TPL_HIGH_LEVEL, TplOp.restoreTpl TPL_CALLBACK,
                TplOp.stationWrite, TplOp.raiseTpl TPL_HIGH_LEVEL, TplOp.restoreOldTpl]
    if (call.1).isError then
      { snp := some call.2, context := some ctx, tplOps := ops }
    else
      { snp := some call.2,
        context := some { ctx with
          PermanentAddress :=
            copyMem ctx.PermanentAddress snp.Mode.PermanentAddress NET_ETHER_ADDR_LEN,
          Assigned := true },
        tplOps := ops }
  | _, _ => { snp := Snp, context := Context, tplOps := [] }

/-- The TPL in force at the moment the stationWrite operation of a trace
executes, starting from current level `cur` with `init` the level saved by
the first RaiseTPL; none when the trace performs no write. -/
def tplAtWrite (cur init : Nat) : List TplOp → Option Nat
  | [] => none
  | TplOp.stationWrite :: _ => some cur
  | TplOp.raiseTpl t :: rest => tplAtWrite t init rest
  | TplOp.restoreTpl t :: rest => tplAtWrite t init rest
  | TplOp.restoreOldTpl :: rest => tplAtWrite init init rest

/-- SimpleNetworkProtocolNotify from MacAddressEmulationDxe.c: a null
context is rejected by assert and early return; otherwise the scan runs
with SnpSupportsMacEmuCheck as the match function and the assigner is
invoked on whatever the scan returned, null included. -/
def SimpleNetworkProtocolNotify
    (LocateHandleBuffer : Except EfiStatus (List EFI_HANDLE))
    (HandleProtocol : EFI_HANDLE → Option EFI_SIMPLE_NETWORK_PROTOCOL)
    (plat : EFI_HANDLE → Bool)
    (stationAddressStatus : EfiStatus)
    (Context : Option MAC_EMULATION_SNP_NOTIFY_CONTEXT) : AssignResult :=
  match Context with
  | none => { snp := none, context := none, tplOps := [] }
  | some ctx =>
    SetSnpMacViaContext stationAddressStatus
      (FindMatchingSnp LocateHandleBuffer HandleProtocol
        (some (SnpSupportsMacEmuCheck plat)) (some ctx))
      (some ctx)

/-- Environment of one MacAddressEmulationEntry run: the outcomes of the
external calls it makes, in order IsMacEmulationEnabled (with the address it
reports), AllocateZeroPool, PlatformMacEmulationEnable, EfiNamedEventListen. -/
structure EntryEnv where
  isMacEmulationEnabledStatus : EfiStatus
  emulationAddress : MacBytes
  allocationOk : Bool
  platformMacEmulationEnableStatus : EfiStatus
  namedEventListenStatus : EfiStatus

/-- Observable outcome of one MacAddressEmulationEntry run: the returned
status, which external steps were reached, and the context built. -/
structure EntryResult where
  status : EfiStatus
  allocationAttempted : Bool
  platformEnableCalled : Bool
  listenCalled : Bool
  context : Option MAC_EMULATION_SNP_NOTIFY_CONTEXT

/-- MacAddressEmulationEntry from MacAddressEmulationDxe.c. An error from
IsMacEmulationEnabled is returned as-is before any allocation; a null
allocation returns EFI_OUT_OF_RESOURCES; the zeroed context gets Assigned =
FALSE and a CopyMem of the reported address over the full EFI_MAC_ADDRESS;
an error from PlatformMacEmulationEnable is returned as-is; an error from
EfiNamedEventListen is only logged and the function returns EFI_SUCCESS. -/
def MacAddressEmulationEntry (env : EntryEnv) : EntryResult :=
  if (env.isMacEmulationEnabledStatus).isError then
    { status := env.isMacEmulationEnabledStatus, allocationAttempted := false,
      platformEnableCalled := false, listenCalled := false, context := none }
  else if env.allocationOk = false then
    { status := EfiStatus.outOfResources, allocationAttempted := true,
      platformEnableCalled := false, listenCalled := false, context := none }
  else
    let ctx0 : MAC_EMULATION_SNP_NOTIFY_CONTEXT :=
      { Assigned := false,
        EmulationAddress := copyMem zeroBytes env.emulationAddress SIZEOF_EFI_MAC_ADDRESS,
        PermanentAddress := zeroBytes }
    if (env.platformMacEmulationEnableStatus).isError then
      { status := env.platformMacEmulationEnableStatus, allocationAttempted := true,
        platformEnableCalled := true, listenCalled := false, context := some ctx0 }
    else
      { status := EfiStatus.success, allocationAttempted := true,
        platformEnableCalled := true, listenCalled := true, context := some ctx0 }

/-! Concrete sample devices and contexts used by witnesses. -/

/-- A sample permanent MAC address. -/
def sampleMac : MacBytes := fun i => i + 1

/-- A different sample permanent MAC address. -/
def sampleMac2 : MacBytes := fun i => i + 7

/-- A sample emulated MAC address. -/
def emuMac : MacBytes := fun i => 100 + i

/-- An eligible SNP instance: initialized, Ethernet, programmable. -/
def snpGood : EFI_SIMPLE_NETWORK_PROTOCOL :=
  { Mode := { State := EfiSimpleNetworkInitialized, IfType := NET_IFTYPE_ETHERNET,
              MacAddressChangeable := true, CurrentAddress := sampleMac,
              PermanentAddress := sampleMac } }

/-- An SNP instance still in the stopped state. -/
def snpStopped : EFI_SIMPLE_NETWORK_PROTOCOL :=
  { Mode := { State := EfiSimpleNetworkStopped, IfType := NET_IFTYPE_ETHERNET,
              MacAddressChangeable := true, CurrentAddress := sampleMac,
              PermanentAddress := sampleMac } }

/-- A second eligible SNP instance with a different permanent address. -/
def snpOther : EFI_SIMPLE_NETWORK_PROTOCOL :=
  { Mode := { State := EfiSimpleNetworkInitialized, IfType := NET_IFTYPE_ETHERNET,
              MacAddressChangeable := true, CurrentAddress := sampleMac2,
              PermanentAddress := sampleMac2 } }

/-- A freshly built context, before any assignment. -/
def ctxFresh : MAC_EMULATION_SNP_NOTIFY_CONTEXT :=
  { Assigned := false, EmulationAddress := emuMac, PermanentAddress := zeroBytes }

/-- A platform per-device check that approves every handle. -/
def platAll : EFI_HANDLE → Bool := fun _ => true

/-! Helper lemmas about the eligibility predicate and memory operations. -/

/-- Characterization of a successful eligibility check in the non-null case. -/
lemma snpCheck_true_iff (plat : EFI_HANDLE → Bool) (hdl : EFI_HANDLE)
    (snp : EFI_SIMPLE_NETWORK_PROTOCOL) (ctx : MAC_EMULATION_SNP_NOTIFY_CONTEXT) :
    SnpSupportsMacEmuCheck plat (some hdl) (some snp) (some ctx) = true ↔
      (snp.Mode.State = EfiSimpleNetworkInitialized ∧
       snp.Mode.IfType = NET_IFTYPE_ETHERNET ∧
       snp.Mode.MacAddressChangeable = true ∧
       plat hdl = true ∧
       (ctx.Assigned = true →
         compareMemEq snp.Mode.PermanentAddress ctx.PermanentAddress NET_ETHER_ADDR_LEN = true)) := by
  unfold SnpSupportsMacEmuCheck
  cases hA : ctx.Assigned <;>
    cases hS : (snp.Mode.State == EfiSimpleNetworkInitialized) <;>
      cases hT : (snp.Mode.IfType == NET_IFTYPE_ETHERNET) <;>
        cases hC : snp.Mode.MacAddressChangeable <;>
          cases hP : plat hdl <;>
            simp_all [beq_iff_eq]

/-- Comparing a buffer against the copy of itself over another buffer succeeds. -/
lemma compareMemEq_copyMem_self (a b : MacBytes) (len : Nat) :
    compareMemEq a (copyMem b a len) len = true := by
  simp only [compareMemEq, copyMem, List.all_eq_true, List.mem_range]
  intro i hi
  simp [hi]

/-- The copy of a buffer over another compares equal against its source. -/
lemma copyMem_compareMemEq_self (a b : MacBytes) (len : Nat) :
    compareMemEq (copyMem b a len) a len = true := by
  simp only [compareMemEq, copyMem, List.all_eq_true, List.mem_range]
  intro i hi
  simp [hi]

/-- Shape of a successful assigner run. -/
lemma setSnpMac_success (stationAddressStatus : EfiStatus)
    (snp : EFI_SIMPLE_NETWORK_PROTOCOL) (ctx : MAC_EMULATION_SNP_NOTIFY_CONTEXT)
    (hok : stationAddressStatus.isError = false) :
    SetSnpMacViaContext stationAddressStatus (some snp) (some ctx) =
      { snp := some { snp with Mode := { snp.Mode with
          CurrentAddress := copyMem snp.Mode.CurrentAddress ctx.EmulationAddress
            SIZEOF_EFI_MAC_ADDRESS } },
        context := some { ctx with
          PermanentAddress :=
            copyMem ctx.PermanentAddress snp.Mode.PermanentAddress NET_ETHER_ADDR_LEN,
          Assigned := true },
        tplOps := [TplOp.raiseTpl TPL_HIGH_LEVEL, TplOp.restoreTpl TPL_CALLBACK,
                   TplOp.stationWrite, TplOp.raiseTpl TPL_HIGH_LEVEL,
                   TplOp.restoreOldTpl] } := by
  unfold SetSnpMacViaContext stationAddressCall
  simp [hok]

/-- Shape of a failed assigner run: both states pass through unchanged. -/
lemma setSnpMac_failure (stationAddressStatus : EfiStatus)
    (snp : EFI_SIMPLE_NETWORK_PROTOCOL) (ctx : MAC_EMULATION_SNP_NOTIFY_CONTEXT)
    (hbad : stationAddressStatus.isError = true) :
    SetSnpMacViaContext stationAddressStatus (some snp) (some ctx) =
      { snp := some snp, context := some ctx,
        tplOps := [TplOp.raiseTpl TPL_HIGH_LEVEL, TplOp.restoreTpl TPL_CALLBACK,
                   TplOp.stationWrite, TplOp.raiseTpl TPL_HIGH_LEVEL,
                   TplOp.restoreOldTpl] } := by
  unfold SetSnpMacViaContext stationAddressCall
  simp [hbad]

/-- C2: for every candidate failing any single eligibility predicate — null
handle, descriptor or context, link state not initialized, interface type not
Ethernet, address not programmable, platform per-device check rejecting, or
(when the context is assigned) a permanent address differing from the cached
one — SnpSupportsMacEmuCheck returns false. -/
theorem isEligible_false_on_any_failing_predicate (plat : EFI_HANDLE → Bool)
    (SnpHandle : Option EFI_HANDLE) (Snp : Option EFI_SIMPLE_NETWORK_PROTOCOL)
    (Context : Option MAC_EMULATION_SNP_NOTIFY_CONTEXT)
    (hfail : SnpHandle = none ∨ Snp = none ∨ Context = none ∨
      (∃ hdl snp ctx, SnpHandle = some hdl ∧ Snp = some snp ∧ Context = some ctx ∧
        (snp.Mode.State ≠ EfiSimpleNetworkInitialized ∨
         snp.Mode.IfType ≠ NET_IFTYPE_ETHERNET ∨
         snp.Mode.MacAddressChangeable = false ∨
         plat hdl = false ∨
         (ctx.Assigned = true ∧
          compareMemEq snp.Mode.PermanentAddress ctx.PermanentAddress
            NET_ETHER_ADDR_LEN = false)))) :
    SnpSupportsMacEmuCheck plat SnpHandle Snp Context = false := by
  rcases hfail with rfl | rfl | rfl | ⟨hdl, snp, ctx, rfl, rfl, rfl, hbad⟩
  · cases Snp <;> cases Context <;> rfl
  · cases SnpHandle <;> cases Context <;> rfl
  · cases SnpHandle <;> cases Snp <;> rfl
  · cases hc : SnpSupportsMacEmuCheck plat (some hdl) (some snp) (some ctx)
    · rfl
    · rcases (snpCheck_true_iff plat hdl snp ctx).mp hc with ⟨h1, h2, h3, h4, h5⟩
      rcases hbad with hb | hb | hb | hb | ⟨hbA, hbC⟩
      · exact absurd h1 hb
      · exact absurd h2 hb
      · rw [h3] at hb; exact absurd hb (by simp)
      · rw [h4] at hb; exact absurd hb (by simp)
      · rw [h5 hbA] at hbC; exact absurd hbC (by simp)

/-- C2 witness: a candidate in the stopped state is rejected. -/
theorem isEligible_false_on_any_failing_predicate_witness :
    SnpSupportsMacEmuCheck platAll (some 1) (some snpStopped) (some ctxFresh) = false :=
  isEligible_false_on_any_failing_predicate platAll (some 1) (some snpStopped)
    (some ctxFresh)
    (Or.inr (Or.inr (Or.inr ⟨1, snpStopped, ctxFresh, rfl, rfl, rfl,
      Or.inl (by decide)⟩)))

/-- C9: the eligibility predicates are evaluated in source order with
rejection at the first failure: the platform per-device check is consulted
exactly when the null checks, the link-state check, the Ethernet-type check
and the programmability check have all passed; the permanent-address
comparison is executed only when additionally the platform check has passed;
the traced result agrees with SnpSupportsMacEmuCheck; and with a null input
neither the platform check nor the comparison is reached. -/
theorem eligibility_checks_evaluated_in_order (plat : EFI_HANDLE → Bool)
    (hdl : EFI_HANDLE) (snp : EFI_SIMPLE_NETWORK_PROTOCOL)
    (ctx : MAC_EMULATION_SNP_NOTIFY_CONTEXT) :
    ((SnpSupportsMacEmuCheckTrace plat (some hdl) (some snp) (some ctx)).oracleConsulted =
        true ↔
      (snp.Mode.State = EfiSimpleNetworkInitialized ∧
       snp.Mode.IfType = NET_IFTYPE_ETHERNET ∧
       snp.Mode.MacAddressChangeable = true)) ∧
    ((SnpSupportsMacEmuCheckTrace plat (some hdl) (some snp) (some ctx)).permCompared =
        true →
      (snp.Mode.State = EfiSimpleNetworkInitialized ∧
       snp.Mode.IfType = NET_IFTYPE_ETHERNET ∧
       snp.Mode.MacAddressChangeable = true ∧ plat hdl = true)) ∧
    (SnpSupportsMacEmuCheckTrace plat (some hdl) (some snp) (some ctx)).result =
      SnpSupportsMacEmuCheck plat (some hdl) (some snp) (some ctx) ∧
    (SnpSupportsMacEmuCheckTrace plat none (some snp) (some ctx)).oracleConsulted = false ∧
    (SnpSupportsMacEmuCheckTrace plat none (some snp) (some ctx)).permCompared = false := by
  refine ⟨?_, ?_, ?_, rfl, rfl⟩
  · unfold SnpSupportsMacEmuCheckTrace
    cases hS : (snp.Mode.State == EfiSimpleNetworkInitialized) <;>
      cases hT : (snp.Mode.IfType == NET_IFTYPE_ETHERNET) <;>
        cases hC : snp.Mode.MacAddressChangeable <;>
          simp_all [beq_iff_eq]
  · unfold SnpSupportsMacEmuCheckTrace
    cases hS : (snp.Mode.State == EfiSimpleNetworkInitialized) <;>
      cases hT : (snp.Mode.IfType == NET_IFTYPE_ETHERNET) <;>
        cases hC : snp.Mode.MacAddressChangeable <;>
          cases hP : plat hdl <;>
            simp_all [beq_iff_eq]
  · unfold SnpSupportsMacEmuCheckTrace SnpSupportsMacEmuCheck
    simp

/-- C4 counterexample: on a concrete eligible device, the StationAddress
write of the assigner executes at TPL_CALLBACK, not at TPL_HIGH_LEVEL,
because the assigner raises to TPL_HIGH_LEVEL and immediately restores down
to TPL_CALLBACK before issuing the write. -/
theorem station_write_not_at_high_tpl :
    tplAtWrite TPL_NOTIFY TPL_NOTIFY
      (SetSnpMacViaContext EfiStatus.success (some snpGood) (some ctxFresh)).tplOps =
      some TPL_CALLBACK ∧ TPL_CALLBACK ≠ TPL_HIGH_LEVEL := by
  exact ⟨rfl, by decide⟩

/-- C4 amended: around the StationAddress write the assigner executes the
TPL sequence RaiseTPL (TPL_HIGH_LEVEL), RestoreTPL (TPL_CALLBACK), write,
RaiseTPL (TPL_HIGH_LEVEL), RestoreTPL (old level); consequently the write
itself executes at TPL_CALLBACK whatever the entry TPL was. -/
theorem station_write_tpl_sequence (stationAddressStatus : EfiStatus)
    (snp : EFI_SIMPLE_NETWORK_PROTOCOL) (ctx : MAC_EMULATION_SNP_NOTIFY_CONTEXT)
    (initTpl : Nat) :
    (SetSnpMacViaContext stationAddressStatus (some snp) (some ctx)).tplOps =
      [TplOp.raiseTpl TPL_HIGH_LEVEL, TplOp.restoreTpl TPL_CALLBACK,
       TplOp.stationWrite, TplOp.raiseTpl TPL_HIGH_LEVEL, TplOp.restoreOldTpl] ∧
    tplAtWrite initTpl initTpl
      (SetSnpMacViaContext stationAddressStatus (some snp) (some ctx)).tplOps =
      some TPL_CALLBACK := by
  cases hE : stationAddressStatus.isError
  · rw [setSnpMac_success stationAddressStatus snp ctx hE]
    exact ⟨rfl, rfl⟩
  · rw [setSnpMac_failure stationAddressStatus snp ctx hE]
    exact ⟨rfl, rfl⟩

/-- C5: when the StationAddress command fails, the assigner leaves the
context (and the device) completely unmodified — in particular Assigned and
PermanentAddress keep their previous values — and a later run with the same
candidate in which the command succeeds completes the assignment. -/
theorem assign_failure_leaves_context_unmodified (stationAddressStatus : EfiStatus)
    (snp : EFI_SIMPLE_NETWORK_PROTOCOL) (ctx : MAC_EMULATION_SNP_NOTIFY_CONTEXT)
    (hbad : stationAddressStatus.isError = true) :
    (SetSnpMacViaContext stationAddressStatus (some snp) (some ctx)).context = some ctx ∧
    (SetSnpMacViaContext stationAddressStatus (some snp) (some ctx)).snp = some snp ∧
    ((SetSnpMacViaContext EfiStatus.success
        ((SetSnpMacViaContext stationAddressStatus (some snp) (some ctx)).snp)
        ((SetSnpMacViaContext stationAddressStatus (some snp) (some ctx)).context)).context).map
      (fun c => c.Assigned) = some true := by
  rw [setSnpMac_failure stationAddressStatus snp ctx hbad]
  refine ⟨rfl, rfl, ?_⟩
  rw [setSnpMac_success EfiStatus.success snp ctx rfl]
  rfl

/-- C5 witness: a concrete failed write leaves the fresh context in place and
a retry that succeeds assigns. -/
theorem assign_failure_leaves_context_unmodified_witness :
    (SetSnpMacViaContext EfiStatus.deviceError (some snpGood) (some ctxFresh)).context =
      some ctxFresh ∧
    (SetSnpMacViaContext EfiStatus.deviceError (some snpGood) (some ctxFresh)).snp =
      some snpGood ∧
    ((SetSnpMacViaContext EfiStatus.success
        ((SetSnpMacViaContext EfiStatus.deviceError (some snpGood) (some ctxFresh)).snp)
        ((SetSnpMacViaContext EfiStatus.deviceError (some snpGood) (some ctxFresh)).context)).context).map
      (fun c => c.Assigned) = some true :=
  assign_failure_leaves_context_unmodified EfiStatus.deviceError snpGood ctxFresh rfl

/-- C6: when the StationAddress command succeeds, the active station address
of the device equals the EmulationAddress of the context over the full
EFI_MAC_ADDRESS, the PermanentAddress of the context equals the permanent
address of the device over NET_ETHER_ADDR_LEN bytes, and Assigned is true. -/
theorem assign_success_programs_emulated_address (stationAddressStatus : EfiStatus)
    (snp snpOut : EFI_SIMPLE_NETWORK_PROTOCOL)
    (ctx ctxOut : MAC_EMULATION_SNP_NOTIFY_CONTEXT)
    (hok : stationAddressStatus.isError = false)
    (hsnp : (SetSnpMacViaContext stationAddressStatus (some snp) (some ctx)).snp =
      some snpOut)
    (hctx : (SetSnpMacViaContext stationAddressStatus (some snp) (some ctx)).context =
      some ctxOut) :
    compareMemEq snpOut.Mode.CurrentAddress ctx.EmulationAddress
      SIZEOF_EFI_MAC_ADDRESS = true ∧
    compareMemEq ctxOut.PermanentAddress snp.Mode.PermanentAddress
      NET_ETHER_ADDR_LEN = true ∧
    ctxOut.Assigned = true := by
  rw [setSnpMac_success stationAddressStatus snp ctx hok] at hsnp hctx
  have hs : snpOut = { snp with Mode := { snp.Mode with
      CurrentAddress := copyMem snp.Mode.CurrentAddress ctx.EmulationAddress
        SIZEOF_EFI_MAC_ADDRESS } } := by
    exact (Option.some_injective _ hsnp).symm
  have hcx : ctxOut = { ctx with
      PermanentAddress :=
        copyMem ctx.PermanentAddress snp.Mode.PermanentAddress NET_ETHER_ADDR_LEN,
      Assigned := true } := by
    exact (Option.some_injective _ hctx).symm
  subst hs hcx
  exact ⟨copyMem_compareMemEq_self ctx.EmulationAddress snp.Mode.CurrentAddress
      SIZEOF_EFI_MAC_ADDRESS,
    copyMem_compareMemEq_self snp.Mode.PermanentAddress ctx.PermanentAddress
      NET_ETHER_ADDR_LEN, rfl⟩

/-- C6 witness: a concrete successful write programs the emulated address and
marks the context assigned. -/
theorem assign_success_programs_emulated_address_witness :
    compareMemEq (copyMem sampleMac emuMac SIZEOF_EFI_MAC_ADDRESS) emuMac
      SIZEOF_EFI_MAC_ADDRESS = true ∧
    compareMemEq (copyMem zeroBytes sampleMac NET_ETHER_ADDR_LEN) sampleMac
      NET_ETHER_ADDR_LEN = true ∧
    True := by
  have h := assign_success_programs_emulated_address EfiStatus.success snpGood
    { snpGood with Mode := { snpGood.Mode with
        CurrentAddress := copyMem sampleMac emuMac SIZEOF_EFI_MAC_ADDRESS } }
    ctxFresh
    { ctxFresh with
      PermanentAddress := copyMem zeroBytes sampleMac NET_ETHER_ADDR_LEN,
      Assigned := true }
    rfl rfl rfl
  exact ⟨h.1, h.2.1, trivial⟩

/-- C1: after a successful assignment, re-checking the assigned device (its
mode unchanged except for the newly programmed station address) still
succeeds, and the check refuses every interface whose permanent address
differs from the PermanentAddress cached in the context. -/
theorem assigned_context_idempotent_and_exclusive (plat : EFI_HANDLE → Bool)
    (hdl hdl2 : EFI_HANDLE) (snp snp2 : EFI_SIMPLE_NETWORK_PROTOCOL)
    (ctx ctx2 : MAC_EMULATION_SNP_NOTIFY_CONTEXT) (stationAddressStatus : EfiStatus)
    (helig : SnpSupportsMacEmuCheck plat (some hdl) (some snp) (some ctx) = true)
    (hok : stationAddressStatus.isError = false)
    (hctx2 : (SetSnpMacViaContext stationAddressStatus (some snp) (some ctx)).context =
      some ctx2) :
    SnpSupportsMacEmuCheck plat (some hdl)
      ((SetSnpMacViaContext stationAddressStatus (some snp) (some ctx)).snp)
      (some ctx2) = true ∧
    (compareMemEq snp2.Mode.PermanentAddress ctx2.PermanentAddress
        NET_ETHER_ADDR_LEN = false →
      SnpSupportsMacEmuCheck plat (some hdl2) (some snp2) (some ctx2) = false) := by
  rw [setSnpMac_success stationAddressStatus snp ctx hok] at hctx2 ⊢
  have hcx : ctx2 = { ctx with
      PermanentAddress :=
        copyMem ctx.PermanentAddress snp.Mode.PermanentAddress NET_ETHER_ADDR_LEN,
      Assigned := true } := (Option.some_injective _ hctx2).symm
  subst hcx
  rcases (snpCheck_true_iff plat hdl snp ctx).mp helig with ⟨h1, h2, h3, h4, _⟩
  constructor
  · apply (snpCheck_true_iff plat hdl _ _).mpr
    exact ⟨h1, h2, h3, h4, fun _ =>
      compareMemEq_copyMem_self snp.Mode.PermanentAddress ctx.PermanentAddress
        NET_ETHER_ADDR_LEN⟩
  · intro hne
    cases hc : SnpSupportsMacEmuCheck plat (some hdl2) (some snp2)
      (some { ctx with
        PermanentAddress :=
          copyMem ctx.PermanentAddress snp.Mode.PermanentAddress NET_ETHER_ADDR_LEN,
        Assigned := true })
    · rfl
    · rcases (snpCheck_true_iff plat hdl2 snp2 _).mp hc with ⟨_, _, _, _, g5⟩
      have ht := g5 rfl
      rw [ht] at hne
      exact Bool.noConfusion hne

/-- C1 witness: a concrete assignment to snpGood, after which snpGood is
still eligible and snpOther, whose permanent address differs, is refused. -/
theorem assigned_context_idempotent_and_exclusive_witness :
    SnpSupportsMacEmuCheck platAll (some 1)
      ((SetSnpMacViaContext EfiStatus.success (some snpGood) (some ctxFresh)).snp)
      (some { ctxFresh with
        PermanentAddress := copyMem zeroBytes sampleMac NET_ETHER_ADDR_LEN,
        Assigned := true }) = true ∧
    SnpSupportsMacEmuCheck platAll (some 2) (some snpOther)
      (some { ctxFresh with
        PermanentAddress := copyMem zeroBytes sampleMac NET_ETHER_ADDR_LEN,
        Assigned := true }) = false := by
  have h := assigned_context_idempotent_and_exclusive platAll 1 2 snpGood snpOther
    ctxFresh
    { ctxFresh with
      PermanentAddress := copyMem zeroBytes sampleMac NET_ETHER_ADDR_LEN,
      Assigned := true }
    EfiStatus.success (by decide) rfl rfl
  exact ⟨h.1, h.2 (by decide)⟩

/-- Skipping a block of handles each of which either fails HandleProtocol or
is refused by the match function. -/
lemma snpSearchLoop_append_skip (MatchFunction : SNP_MATCH_FUNCTION)
    (HandleProtocol : EFI_HANDLE → Option EFI_SIMPLE_NETWORK_PROTOCOL)
    (MatchFunctionContext : Option MAC_EMULATION_SNP_NOTIFY_CONTEXT)
    (pre rest : List EFI_HANDLE)
    (hpre : ∀ h0 ∈ pre, ∀ s0, HandleProtocol h0 = some s0 →
      MatchFunction (some h0) (some s0) MatchFunctionContext = false) :
    snpSearchLoop MatchFunction HandleProtocol MatchFunctionContext (pre ++ rest) =
      snpSearchLoop MatchFunction HandleProtocol MatchFunctionContext rest := by
  induction pre with
  | nil => rfl
  | cons x xs ih =>
    have hx : ∀ s0, HandleProtocol x = some s0 →
        MatchFunction (some x) (some s0) MatchFunctionContext = false :=
      fun s0 hs => hpre x (List.mem_cons_self x xs) s0 hs
    have hxs : ∀ h0 ∈ xs, ∀ s0, HandleProtocol h0 = some s0 →
        MatchFunction (some h0) (some s0) MatchFunctionContext = false :=
      fun h0 hm s0 hs => hpre h0 (List.mem_cons_of_mem x hm) s0 hs
    rw [List.cons_append]
    cases hpx : HandleProtocol x with
    | none =>
      rw [snpSearchLoop, hpx]
      exact ih hxs
    | some s =>
      rw [snpSearchLoop, hpx]
      show (if MatchFunction (some x) (some s) MatchFunctionContext = true then some s
        else snpSearchLoop MatchFunction HandleProtocol MatchFunctionContext (xs ++ rest)) =
        snpSearchLoop MatchFunction HandleProtocol MatchFunctionContext rest
      rw [hx s hpx]
      simpa using ih hxs

/-- C3: the scan returns none when enumeration fails (the failure is absorbed,
not propagated) or the registry is empty, and over a registry holding one
matching candidate among non-matching ones it returns that candidate whatever
its position, expressed by arbitrary blocks of refused handles before and
after it. -/
theorem findMatchingSnp_none_and_unique_match
    (HandleProtocol : EFI_HANDLE → Option EFI_SIMPLE_NETWORK_PROTOCOL)
    (matchFn : SNP_MATCH_FUNCTION)
    (MatchFunctionContext : Option MAC_EMULATION_SNP_NOTIFY_CONTEXT)
    (enumStatus : EfiStatus) (pre post : List EFI_HANDLE) (hdl : EFI_HANDLE)
    (snpFound : EFI_SIMPLE_NETWORK_PROTOCOL)
    (hfound : HandleProtocol hdl = some snpFound)
    (hmatch : matchFn (some hdl) (some snpFound) MatchFunctionContext = true)
    (hpre : ∀ h0 ∈ pre, ∀ s0, HandleProtocol h0 = some s0 →
      matchFn (some h0) (some s0) MatchFunctionContext = false) :
    FindMatchingSnp (Except.error enumStatus) HandleProtocol (some matchFn)
      MatchFunctionContext = none ∧
    FindMatchingSnp (Except.ok []) HandleProtocol (some matchFn)
      MatchFunctionContext = none ∧
    FindMatchingSnp (Except.ok (pre ++ hdl :: post)) HandleProtocol (some matchFn)
      MatchFunctionContext = some snpFound := by
  refine ⟨rfl, rfl, ?_⟩
  show snpSearchLoop matchFn HandleProtocol MatchFunctionContext (pre ++ hdl :: post) =
    some snpFound
  rw [snpSearchLoop_append_skip matchFn HandleProtocol MatchFunctionContext pre
    (hdl :: post) hpre]
  rw [snpSearchLoop, hfound]
  simp [hmatch]

/-- C3 witness: a registry of four handles where only handle 1, in second
position, resolves to an eligible SNP; the scan returns that SNP, and both
the error and the empty enumerations return none. -/
theorem findMatchingSnp_none_and_unique_match_witness :
    FindMatchingSnp (Except.error EfiStatus.notFound)
      (fun n => if n == 1 then some snpGood else some snpStopped)
      (some (SnpSupportsMacEmuCheck platAll)) (some ctxFresh) = none ∧
    FindMatchingSnp (Except.ok [])
      (fun n => if n == 1 then some snpGood else some snpStopped)
      (some (SnpSupportsMacEmuCheck platAll)) (some ctxFresh) = none ∧
    FindMatchingSnp (Except.ok ([0] ++ 1 :: [2, 3]))
      (fun n => if n == 1 then some snpGood else some snpStopped)
      (some (SnpSupportsMacEmuCheck platAll)) (some ctxFresh) = some snpGood := by
  apply findMatchingSnp_none_and_unique_match
    (fun n => if n == 1 then some snpGood else some snpStopped)
    (SnpSupportsMacEmuCheck platAll) (some ctxFresh) EfiStatus.notFound [0] [2, 3] 1
    snpGood rfl (by decide)
  intro h0 hmem s0 hs
  simp only [List.mem_singleton] at hmem
  subst hmem
  have hs0 : s0 = snpStopped := by
    simpa using hs.symm
  subst hs0
  decide

/-- C7: when the platform oracle reports emulation unsupported, the entry
point returns exactly the unsupported status and reaches neither the context
allocation nor the event-listener registration. -/
theorem entry_declined_no_allocation_no_subscription (env : EntryEnv)
    (hdecl : env.isMacEmulationEnabledStatus = EfiStatus.unsupported) :
    (MacAddressEmulationEntry env).status = EfiStatus.unsupported ∧
    (MacAddressEmulationEntry env).allocationAttempted = false ∧
    (MacAddressEmulationEntry env).listenCalled = false := by
  unfold MacAddressEmulationEntry
  rw [hdecl]
  exact ⟨rfl, rfl, rfl⟩

/-- C7 witness: a concrete declined environment. -/
theorem entry_declined_no_allocation_no_subscription_witness :
    (MacAddressEmulationEntry
      { isMacEmulationEnabledStatus := EfiStatus.unsupported,
        emulationAddress := emuMac, allocationOk := true,
        platformMacEmulationEnableStatus := EfiStatus.success,
        namedEventListenStatus := EfiStatus.success }).status = EfiStatus.unsupported ∧
    (MacAddressEmulationEntry
      { isMacEmulationEnabledStatus := EfiStatus.unsupported,
        emulationAddress := emuMac, allocationOk := true,
        platformMacEmulationEnableStatus := EfiStatus.success,
        namedEventListenStatus := EfiStatus.success }).allocationAttempted = false ∧
    (MacAddressEmulationEntry
      { isMacEmulationEnabledStatus := EfiStatus.unsupported,
        emulationAddress := emuMac, allocationOk := true,
        platformMacEmulationEnableStatus := EfiStatus.success,
        namedEventListenStatus := EfiStatus.success }).listenCalled = false :=
  entry_declined_no_allocation_no_subscription _ rfl

/-- C8: with platform enablement reported successful, the entry point returns
success whatever the listener-registration outcome was (the failure is only
logged), while an allocation failure returns out-of-resources and a platform
enablement failure returns that failing status. -/
theorem entry_listen_failure_nonfatal_other_failures_fatal (env : EntryEnv)
    (henab : (env.isMacEmulationEnabledStatus).isError = false) :
    (env.allocationOk = true → (env.platformMacEmulationEnableStatus).isError = false →
      (MacAddressEmulationEntry env).status = EfiStatus.success ∧
      (MacAddressEmulationEntry env).listenCalled = true) ∧
    (env.allocationOk = false →
      (MacAddressEmulationEntry env).status = EfiStatus.outOfResources) ∧
    (env.allocationOk = true → (env.platformMacEmulationEnableStatus).isError = true →
      (MacAddressEmulationEntry env).status = env.platformMacEmulationEnableStatus) := by
  refine ⟨fun hall hplat => ?_, fun hall => ?_, fun hall hplat => ?_⟩
  · unfold MacAddressEmulationEntry
    rw [henab, hall, hplat]
    exact ⟨rfl, rfl⟩
  · unfold MacAddressEmulationEntry
    rw [henab, hall]
    rfl
  · unfold MacAddressEmulationEntry
    rw [henab, hall, hplat]
    rfl

/-- C8 witness: a concrete environment whose listener registration fails with
a device error still yields success from the entry point. -/
theorem entry_listen_failure_nonfatal_other_failures_fatal_witness :
    (MacAddressEmulationEntry
      { isMacEmulationEnabledStatus := EfiStatus.success,
        emulationAddress := emuMac, allocationOk := true,
        platformMacEmulationEnableStatus := EfiStatus.success,
        namedEventListenStatus := EfiStatus.deviceError }).status = EfiStatus.success ∧
    (MacAddressEmulationEntry
      { isMacEmulationEnabledStatus := EfiStatus.success,
        emulationAddress := emuMac, allocationOk := true,
        platformMacEmulationEnableStatus := EfiStatus.success,
        namedEventListenStatus := EfiStatus.deviceError }).listenCalled = true :=
  (entry_listen_failure_nonfatal_other_failures_fatal
    { isMacEmulationEnabledStatus := EfiStatus.success,
      emulationAddress := emuMac, allocationOk := true,
      platformMacEmulationEnableStatus := EfiStatus.success,
      namedEventListenStatus := EfiStatus.deviceError } rfl).1 rfl rfl

/-- C10: when the scan finds no eligible candidate the notify handler still
invokes the assigner, which tolerates the null candidate by doing nothing:
the context passes through unchanged and no station write (indeed no TPL
operation) is issued; a null context is likewise tolerated. -/
theorem notify_without_candidate_leaves_context_unchanged
    (LocateHandleBuffer : Except EfiStatus (List EFI_HANDLE))
    (HandleProtocol : EFI_HANDLE → Option EFI_SIMPLE_NETWORK_PROTOCOL)
    (plat : EFI_HANDLE → Bool) (stationAddressStatus : EfiStatus)
    (ctx : MAC_EMULATION_SNP_NOTIFY_CONTEXT) (snp : EFI_SIMPLE_NETWORK_PROTOCOL)
    (hnone : FindMatchingSnp LocateHandleBuffer HandleProtocol
      (some (SnpSupportsMacEmuCheck plat)) (some ctx) = none) :
    (SimpleNetworkProtocolNotify LocateHandleBuffer HandleProtocol plat
      stationAddressStatus (some ctx)).context = some ctx ∧
    TplOp.stationWrite ∉ (SimpleNetworkProtocolNotify LocateHandleBuffer HandleProtocol
      plat stationAddressStatus (some ctx)).tplOps ∧
    SetSnpMacViaContext stationAddressStatus none (some ctx) =
      { snp := none, context := some ctx, tplOps := [] } ∧
    SetSnpMacViaContext stationAddressStatus (some snp) none =
      { snp := some snp, context := none, tplOps := [] } := by
  simp only [SimpleNetworkProtocolNotify]
  rw [hnone]
  exact ⟨rfl, by simp [SetSnpMacViaContext], rfl, rfl⟩

/-- C10 witness: a run whose enumeration failed, so the scan returned none;
the context survives unchanged and no write is issued. -/
theorem notify_without_candidate_leaves_context_unchanged_witness :
    (SimpleNetworkProtocolNotify (Except.error EfiStatus.notFound)
      (fun _ => some snpStopped) platAll EfiStatus.success (some ctxFresh)).context =
      some ctxFresh ∧
    TplOp.stationWrite ∉ (SimpleNetworkProtocolNotify (Except.error EfiStatus.notFound)
      (fun _ => some snpStopped) platAll EfiStatus.success (some ctxFresh)).tplOps ∧
    SetSnpMacViaContext EfiStatus.success none (some ctxFresh) =
      { snp := none, context := some ctxFresh, tplOps := [] } ∧
    SetSnpMacViaContext EfiStatus.success (some snpGood) none =
      { snp := some snpGood, context := none, tplOps := [] } :=
  notify_without_candidate_leaves_context_unchanged (Except.error EfiStatus.notFound)
    (fun _ => some snpStopped) platAll EfiStatus.success ctxFresh snpGood rfl

end MacEmu
